import Mathlib

/-!
Verification of the incremental EXIF extraction pipeline (`src/app.py`)
against its natural-language specification.

The Python source is shallowly embedded as follows:
* Python float arithmetic in `dms_to_decimal` is idealized as exact
  rational (`ℚ`) arithmetic; the predicate `IsDyadicRat` captures which
  rationals a finite IEEE-754 binary64 value (always a dyadic rational)
  can represent exactly, which lets us reason about what the float code
  can and cannot return.
* `math`-library trigonometry in `haversine_distance` is embedded over
  `ℝ` with `Real.sin`, `Real.cos`, `Real.arcsin`, `Real.sqrt`;
  `math.radians x = x * π / 180`.  `find_nearest_location` is embedded
  from the point where its bounding-box query has fetched the candidate
  rows (`resolveCandidates`); the buffer arithmetic building the box
  itself is not embedded, because its behaviour at the poles is decided
  by binary64 rounding (`math.cos(math.radians(90))` is a tiny nonzero
  double), which an exact-real model cannot render faithfully.
* SQLite tables are embedded as Lean lists: the `photos` table as a
  `List PhotoRecord` with `INSERT OR REPLACE` as upsert-by-filepath, the
  `locations` table as a `List GeoCandidate` / `List LocationRow`.
* Python exceptions are embedded as data: the outcome of
  `exifread.process_file` on a file is an `ExtractResult` (success /
  `ExifReadError` / other exception), and the `try/except` blocks of
  `process_images` become case analysis on it.  A Python value that may
  be `None` becomes an `Option`; Python truthiness of floats and strings
  is modelled by `qTruthy` / `pyTruthyStr`.
* The cooperative-shutdown flag and the progress bar are not modelled
  (no claim concerns them; all runs are modelled as uninterrupted).
-/

/- ------------------------------------------------------------------
   Tag Extractor: GPS rational-to-decimal conversion (app.py 28-36)
   ------------------------------------------------------------------ -/

/-- An EXIF rational as delivered by the tag-reading library: a
numerator/denominator pair of integers (exifread `Ratio` has fields
`num` and `den`). -/
structure ExifRational where
  num : ℤ
  den : ℤ
deriving DecidableEq

/-- The exact rational value `num / den` of an EXIF rational. -/
def ratVal (r : ExifRational) : ℚ := (r.num : ℚ) / (r.den : ℚ)

/-- `dms_to_decimal` (app.py 28-36), with the Python float divisions
`float(num) / float(den)` idealized as exact rational division.
`dms` is the (degrees, minutes, seconds) triple, `ref` the hemisphere
reference string; the sign is flipped for `ref in ['S', 'W']`. -/
def dms_to_decimal (dms : ExifRational × ExifRational × ExifRational) (ref : String) : ℚ :=
  let degrees := (dms.1.num : ℚ) / (dms.1.den : ℚ)
  let minutes := (dms.2.1.num : ℚ) / (dms.2.1.den : ℚ)
  let seconds := (dms.2.2.num : ℚ) / (dms.2.2.den : ℚ)
  let dec := degrees + minutes / 60 + seconds / 3600
  if ref = "S" ∨ ref = "W" then -dec else dec

/-- A rational is dyadic when it is `m / 2 ^ e`.  Every finite IEEE-754
binary64 value (what the Python implementation actually returns) is a
dyadic rational, so a non-dyadic exact value can never be returned
exactly by the float code. -/
def IsDyadicRat (q : ℚ) : Prop := ∃ (m : ℤ) (e : ℕ), q = (m : ℚ) / 2 ^ e

/- ------------------------------------------------------------------
   Location Resolver (app.py 39-46, 210-228, 231-294)
   ------------------------------------------------------------------ -/

/-- One row of the `locations` table as fetched by the bounding-box
query of `find_nearest_location` (app.py 249-254): name, latitude,
longitude, admin1 code, country code.  `none` models SQL NULL. -/
structure GeoCandidate where
  name : Option String
  lat : ℝ
  lon : ℝ
  admin1_code : Option String
  country_code : Option String

/-- Python truthiness of a nullable string: `None` and `""` are falsy. -/
def pyTruthyStr : Option String → Bool
  | none => false
  | some s => !(s == "")

/-- Python `sep.join(parts)`. -/
def joinSep (sep : String) : List String → String
  | [] => ""
  | [x] => x
  | x :: xs => x ++ sep ++ joinSep sep xs

/-- `format_location_string` (app.py 210-228): `None` for a falsy name,
otherwise `"Name, Admin1, Country"` omitting falsy segments. -/
def format_location_string (name admin1_code country_code : Option String) : Option String :=
  if pyTruthyStr name = false then none
  else
    let parts := [name.getD ""]
      ++ (if pyTruthyStr admin1_code = true then [admin1_code.getD ""] else [])
      ++ (if pyTruthyStr country_code = true then [country_code.getD ""] else [])
    some (joinSep ", " parts)

/-- `haversine_distance` (app.py 39-46) over exact reals:
`math.radians x = x * π / 180`, Earth radius 6371 km. -/
noncomputable def haversine_distance (lat1 lon1 lat2 lon2 : ℝ) : ℝ :=
  let R : ℝ := 6371
  let dlat := (lat2 - lat1) * Real.pi / 180
  let dlon := (lon2 - lon1) * Real.pi / 180
  let a := Real.sin (dlat / 2) ^ 2 +
    Real.cos (lat1 * Real.pi / 180) * Real.cos (lat2 * Real.pi / 180) * Real.sin (dlon / 2) ^ 2
  let c := 2 * Real.arcsin (Real.sqrt a)
  R * c

/-- The candidate loop of `find_nearest_location` (app.py 268-284).
The running state is `none` before the first candidate (modelling
`min_distance = float('inf')`, `nearest_location_data = None`; every
finite distance compares below infinity) and `some (m, b)` once a
nearest candidate `b` at distance `m` is tracked.  The `break` on a
distance below 0.5 km returns immediately with the just-updated state. -/
noncomputable def scanCandidates (lat lon : ℝ) :
    List GeoCandidate → Option (ℝ × GeoCandidate) → Option (ℝ × GeoCandidate)
  | [], st => st
  | c :: rest, st =>
    let d := haversine_distance lat lon c.lat c.lon
    match st with
    | none =>
      if d < 0.5 then some (d, c)
      else scanCandidates lat lon rest (some (d, c))
    | some (m, b) =>
      if d < m then
        (if d < 0.5 then some (d, c) else scanCandidates lat lon rest (some (d, c)))
      else scanCandidates lat lon rest (some (m, b))

/-- `find_nearest_location` from the point where the bounding-box query
has produced its candidate rows (app.py 263-290): empty candidate set
returns `None`; otherwise scan, then return the formatted string when
the tracked minimum distance is within `max_distance_km`. -/
noncomputable def resolveCandidates (lat lon : ℝ) (candidates : List GeoCandidate)
    (max_distance_km : ℝ) : Option String :=
  if candidates.isEmpty then none
  else
    match scanCandidates lat lon candidates none with
    | none => none
    | some (m, b) =>
      if m ≤ max_distance_km then format_location_string b.name b.admin1_code b.country_code
      else none

/-- Modelled from the spec (section 4.3, step 3-5 without step 4's early
exit): the exhaustive minimum-distance scan over all candidates, used as
the comparison point for the early-exit refinement claim. -/
noncomputable def scanCandidatesExhaustive (lat lon : ℝ) :
    List GeoCandidate → Option (ℝ × GeoCandidate) → Option (ℝ × GeoCandidate)
  | [], st => st
  | c :: rest, st =>
    let d := haversine_distance lat lon c.lat c.lon
    match st with
    | none => scanCandidatesExhaustive lat lon rest (some (d, c))
    | some (m, b) =>
      if d < m then scanCandidatesExhaustive lat lon rest (some (d, c))
      else scanCandidatesExhaustive lat lon rest (some (m, b))

/-- Modelled from the spec: `resolveCandidates` with the exhaustive scan
in place of the early-exit scan. -/
noncomputable def resolveCandidatesExhaustive (lat lon : ℝ) (candidates : List GeoCandidate)
    (max_distance_km : ℝ) : Option String :=
  if candidates.isEmpty then none
  else
    match scanCandidatesExhaustive lat lon candidates none with
    | none => none
    | some (m, b) =>
      if m ≤ max_distance_km then format_location_string b.name b.admin1_code b.country_code
      else none

/- ------------------------------------------------------------------
   Pipeline Orchestrator / Catalog Store (app.py 325-596)
   ------------------------------------------------------------------ -/

/-- Python truthiness of a nullable float (`if current_mtime and ...`,
app.py 438): `None` and `0.0` are falsy. -/
def qTruthy : Option ℚ → Bool
  | none => false
  | some x => !(decide (x = 0))

/-- `os.path.basename`: everything after the last `/`. -/
def basename (p : String) : String :=
  String.mk ((p.toList.reverse.takeWhile fun c => !(c == '/')).reverse)

/-- One row of the `photos` table (app.py 343-365).  `filepath` is the
upsert key (SQL UNIQUE).  Nullable columns are `Option`s; `file_mtime`
is a nullable float modelled as `Option ℚ`; GPS decimals are the
(idealized-exact) outputs of `dms_to_decimal`. -/
structure PhotoRecord where
  filename : String
  filepath : String
  datetime : Option String
  camera_model : Option String
  lens_model : Option String
  iso : Option String
  fnumber : Option String
  exposure_time : Option String
  focal_length : Option String
  orientation : Option String
  gps_lat : Option ℚ
  gps_lon : Option ℚ
  location : Option String
  status : String
  file_hash : Option String
  file_mtime : Option ℚ
  processed_at : String
  error_message : Option String
deriving DecidableEq

/-- The run-scoped counters of `process_images` (app.py 390-396). -/
structure RunStats where
  image_count : ℕ
  skipped_count : ℕ
  error_count : ℕ
  gps_count : ℕ
  new_count : ℕ
  updated_count : ℕ
deriving DecidableEq

def initialStats : RunStats := ⟨0, 0, 0, 0, 0, 0⟩

/-- The GPS tag block of a file when both `GPS GPSLatitude` and
`GPS GPSLongitude` are present (app.py 477): the two DMS triples and the
two (stringified) hemisphere reference tags. -/
structure GpsTags where
  latDms : ExifRational × ExifRational × ExifRational
  latRef : String
  lonDms : ExifRational × ExifRational × ExifRational
  lonRef : String
deriving DecidableEq

/-- The tag mapping returned by a successful `exifread.process_file`
call, already reduced to the fields `process_images` reads
(app.py 454-477); `gps = none` when either GPS coordinate tag is absent. -/
structure ExifTags where
  datetime_val : Option String
  camera_model : Option String
  lens_model : Option String
  iso : Option String
  fnumber : Option String
  exposure_time : Option String
  focal_length : Option String
  orientation : Option String
  gps : Option GpsTags
deriving DecidableEq

/-- Outcome of opening and tag-parsing one file: success,
`exifread.ExifReadError` (caught at app.py 518), or any other exception
(caught at app.py 546). -/
inductive ExtractResult where
  | ok (tags : ExifTags)
  | exifError (msg : String)
  | otherError (msg : String)
deriving DecidableEq

/-- A file of the scanned directory together with what the filesystem
and the tag extractor deliver for it during the run: `exists_now` is the
`os.path.exists` re-check (app.py 427), `mtime` the `get_file_mtime`
result (`None` when unreadable), `hash` the `calculate_file_hash` result,
`extract` the tag-parsing outcome. -/
structure FileInfo where
  filepath : String
  exists_now : Bool
  mtime : Option ℚ
  hash : Option String
  extract : ExtractResult
deriving DecidableEq

/-- `dms_to_decimal` raises `ZeroDivisionError` exactly when one of the
three denominators is zero (Python `float / 0.0`). -/
def dmsRaises (d : ExifRational × ExifRational × ExifRational) : Bool :=
  decide (d.1.den = 0) || decide (d.2.1.den = 0) || decide (d.2.2.den = 0)

/-- The GPS block of the success path (app.py 474-487), producing
`(gps_lat, gps_lon, location, gps_count increment)`.  The inner
`try/except ... pass` means: if the latitude conversion raises, both
coordinates stay `None`; if only the longitude conversion raises,
`gps_lat` keeps its already-assigned value; `gps_count` and the location
lookup happen only after both conversions succeed.  `resolve` stands for
`find_nearest_location` on the live database cursor (it catches its own
errors and returns `None` rather than raising, app.py 292-294). -/
def gpsCompute (resolve : ℚ → ℚ → Option String) (skip_location : Bool)
    (g : Option GpsTags) : Option ℚ × Option ℚ × Option String × ℕ :=
  match g with
  | none => (none, none, none, 0)
  | some t =>
    if dmsRaises t.latDms then (none, none, none, 0)
    else
      let la := dms_to_decimal t.latDms t.latRef
      if dmsRaises t.lonDms then (some la, none, none, 0)
      else
        let lo := dms_to_decimal t.lonDms t.lonRef
        let loc := if skip_location then none else resolve la lo
        (some la, some lo, loc, 1)

/-- The record written on the success path (app.py 489-504). -/
def okRecord (resolve : ℚ → ℚ → Option String) (skip_location : Bool) (now : String)
    (f : FileInfo) (tags : ExifTags) : PhotoRecord :=
  let g := gpsCompute resolve skip_location tags.gps
  { filename := basename f.filepath
    filepath := f.filepath
    datetime := tags.datetime_val
    camera_model := tags.camera_model
    lens_model := tags.lens_model
    iso := tags.iso
    fnumber := tags.fnumber
    exposure_time := tags.exposure_time
    focal_length := tags.focal_length
    orientation := tags.orientation
    gps_lat := g.1
    gps_lon := g.2.1
    location := g.2.2.1
    status := "processed"
    file_hash := f.hash
    file_mtime := f.mtime
    processed_at := now
    error_message := none }

/-- The record written on either failure path (app.py 526-538 and
555-567): all EXIF-derived columns NULL, `status = 'failed'`, the
recomputed hash/mtime, and the error message. -/
def failedRecord (f : FileInfo) (now msg : String) : PhotoRecord :=
  { filename := basename f.filepath
    filepath := f.filepath
    datetime := none
    camera_model := none
    lens_model := none
    iso := none
    fnumber := none
    exposure_time := none
    focal_length := none
    orientation := none
    gps_lat := none
    gps_lon := none
    location := none
    status := "failed"
    file_hash := f.hash
    file_mtime := f.mtime
    processed_at := now
    error_message := some msg }

/-- The record a file's extraction attempt stores, by outcome. -/
def extractRecord (resolve : ℚ → ℚ → Option String) (skip_location : Bool) (now : String)
    (f : FileInfo) : PhotoRecord :=
  match f.extract with
  | .ok tags => okRecord resolve skip_location now f tags
  | .exifError m => failedRecord f now ("EXIF read error: " ++ m)
  | .otherError m => failedRecord f now ("Processing error: " ++ m)

/-- `INSERT OR REPLACE` into `photos` with `filepath UNIQUE`
(app.py 492-504): replace the row with the same filepath, else insert. -/
def upsert (db : List PhotoRecord) (r : PhotoRecord) : List PhotoRecord :=
  if db.any fun x => x.filepath == r.filepath then
    db.map fun x => if x.filepath == r.filepath then r else x
  else db ++ [r]

/-- Extraction plus persistence for one file that was not skipped
(app.py 447-575): by extraction outcome, upsert the corresponding record
and advance the counters (`image_count`/`gps_count`/`new_count` on
success, `error_count` on failure).  `wasInProcessed` is
`filepath in processed_files` (app.py 507). -/
def extractAndStore (resolve : ℚ → ℚ → Option String) (skip_location : Bool) (now : String)
    (db : List PhotoRecord) (stats : RunStats) (wasInProcessed : Bool) (f : FileInfo) :
    List PhotoRecord × RunStats :=
  match f.extract with
  | .ok tags =>
    (upsert db (okRecord resolve skip_location now f tags),
      { stats with
        image_count := stats.image_count + 1
        gps_count := stats.gps_count + (gpsCompute resolve skip_location tags.gps).2.2.2
        new_count := stats.new_count + (if wasInProcessed then 0 else 1) })
  | .exifError m =>
    (upsert db (failedRecord f now ("EXIF read error: " ++ m)),
      { stats with error_count := stats.error_count + 1 })
  | .otherError m =>
    (upsert db (failedRecord f now ("Processing error: " ++ m)),
      { stats with error_count := stats.error_count + 1 })

/-- The resume snapshot (app.py 377-378): the `filepath -> (file_mtime,
file_hash)` map built from the rows `WHERE status = 'processed'` only. -/
def processedFiles (db : List PhotoRecord) : List (String × (Option ℚ × Option String)) :=
  (db.filter fun r => r.status == "processed").map fun r => (r.filepath, (r.file_mtime, r.file_hash))

/-- The body of the per-file loop (app.py 416-575) for one file, from
state `(db, stats)`: a vanished file only counts an error (app.py
427-430); a file present in the snapshot is skipped when both mtimes are
truthy and equal (app.py 432-442), otherwise it counts as updated and is
re-extracted (app.py 443-445); everything else goes to extraction. -/
def processOneFile (resolve : ℚ → ℚ → Option String) (skip_location : Bool) (now : String)
    (pf : List (String × (Option ℚ × Option String)))
    (st : List PhotoRecord × RunStats) (f : FileInfo) : List PhotoRecord × RunStats :=
  if f.exists_now = false then
    (st.1, { st.2 with error_count := st.2.error_count + 1 })
  else
    match pf.lookup f.filepath with
    | some (stored_mtime, _) =>
      if qTruthy f.mtime = true ∧ qTruthy stored_mtime = true ∧ f.mtime = stored_mtime then
        (st.1, { st.2 with skipped_count := st.2.skipped_count + 1 })
      else
        extractAndStore resolve skip_location now st.1
          { st.2 with updated_count := st.2.updated_count + 1 } true f
    | none => extractAndStore resolve skip_location now st.1 st.2 false f

/-- One `process` run (app.py 325-596) over an already-collected file
list, starting from the stored table `db`: build the resume snapshot
(empty under `--force-reprocess`, app.py 376-382), then fold the
per-file loop.  Returns the final table and the run counters. -/
def processRun (resolve : ℚ → ℚ → Option String) (force_reprocess skip_location : Bool)
    (now : String) (files : List FileInfo) (db : List PhotoRecord) :
    List PhotoRecord × RunStats :=
  let pf := if force_reprocess then [] else processedFiles db
  files.foldl (processOneFile resolve skip_location now pf) (db, initialStats)

/- ------------------------------------------------------------------
   Geo Index import (app.py 96-207)
   ------------------------------------------------------------------ -/

/-- The value of a run of decimal digits, or `none` when empty or
containing a non-digit. -/
def digitsToNat? (cs : List Char) : Option ℕ :=
  if cs ≠ [] ∧ cs.all Char.isDigit then
    some (cs.foldl (fun n c => 10 * n + (c.toNat - 48)) 0)
  else none

/-- CPython `int(s)` restricted to optionally-minus-signed decimal
digit strings (the forms occurring in gazetteer id fields); `none`
models a raised `ValueError`. -/
def pyInt? (s : String) : Option ℤ :=
  match s.toList with
  | '-' :: rest => (digitsToNat? rest).map fun n => -(n : ℤ)
  | cs => (digitsToNat? cs).map fun n => (n : ℤ)

/-- Split a character list at the first `.`, returning the prefix and,
when a dot was found, the remainder. -/
def splitDotAux : List Char → List Char → List Char × Option (List Char)
  | [], acc => (acc.reverse, none)
  | c :: cs, acc =>
    if c == '.' then (acc.reverse, some cs) else splitDotAux cs (c :: acc)

/-- Magnitude part of `pyFloat?`: `digits` or `digits.digits`. -/
def pyFloatMag? (cs : List Char) : Option ℚ :=
  match splitDotAux cs [] with
  | (intpart, none) => (digitsToNat? intpart).map fun n => (n : ℚ)
  | (intpart, some frac) =>
    match digitsToNat? intpart, digitsToNat? frac with
    | some n, some m => some ((n : ℚ) + (m : ℚ) / (10 : ℚ) ^ frac.length)
    | _, _ => none

/-- CPython `float(s)` restricted to optionally-minus-signed plain
decimal forms (the forms occurring in gazetteer coordinate fields);
`none` models a raised `ValueError`. -/
def pyFloat? (s : String) : Option ℚ :=
  match s.toList with
  | '-' :: rest => (pyFloatMag? rest).map fun q => -q
  | cs => pyFloatMag? cs

/-- Python `str.strip()` for the whitespace occurring in the dataset. -/
def pyStrip (s : String) : String :=
  let ws : Char → Bool := fun c => c == ' ' || c == '\t' || c == '\n' || c == '\r'
  String.mk (((s.toList.dropWhile ws).reverse.dropWhile ws).reverse)

/-- Python `s.split('\t')`. -/
def splitTabAux : List Char → List Char → List String
  | [], acc => [String.mk acc.reverse]
  | c :: cs, acc =>
    if c == '\t' then String.mk acc.reverse :: splitTabAux cs []
    else splitTabAux cs (c :: acc)

def splitTab (s : String) : List String := splitTabAux s.toList []

/-- Python conditional `int(s) if s else None` inside the row `try`
block: outer `none` is a raised `ValueError`, inner value is the
nullable field. -/
def parseOptInt (s : String) : Option (Option ℤ) :=
  if s == "" then some none
  else match pyInt? s with
    | some n => some (some n)
    | none => none

/-- Python conditional `float(s) if ... and s else None` inside the row
`try` block. -/
def parseOptFloat (s : String) : Option (Option ℚ) :=
  if s == "" then some none
  else match pyFloat? s with
    | some q => some (some q)
    | none => none

/-- Python truthiness of the parsed geonameid (`if geonameid and ...`,
app.py 187): `None` and `0` are falsy. -/
def gidTruthy : Option ℤ → Bool
  | none => false
  | some n => !(decide (n = 0))

/-- One row of the `locations` table as inserted by
`import_locations_to_db` (app.py 188-192). -/
structure LocationRow where
  geonameid : ℤ
  name : Option String
  asciiname : Option String
  latitude : ℚ
  longitude : ℚ
  feature_class : Option String
  feature_code : Option String
  country_code : Option String
  admin1_code : Option String
  admin2_code : Option String
deriving DecidableEq

/-- Import-loop state: the two counters of `import_locations_to_db`
(app.py 155-156) and the contents of the `locations` table. -/
structure GazImportState where
  imported_count : ℕ
  error_count : ℕ
  rows : List LocationRow
deriving DecidableEq

/-- `INSERT OR IGNORE` with `geonameid` primary key. -/
def insertOrIgnore (rows : List LocationRow) (r : LocationRow) : List LocationRow :=
  if rows.any fun x => decide (x.geonameid = r.geonameid) then rows else rows ++ [r]

/-- The body of the import loop for one line (app.py 170-196):
`fields = line.strip().split('\t')`; fewer than 9 fields counts an
error and skips; a `ValueError` from `int`/`float` counts an error and
skips; a parsed row with falsy id or missing latitude/longitude is
silently skipped (no `else` on the insert guard); otherwise the row is
inserted (duplicates ignored) and counted as imported. -/
def gazImportLine (st : GazImportState) (line : String) : GazImportState :=
  let fields := splitTab (pyStrip line)
  if fields.length < 9 then { st with error_count := st.error_count + 1 }
  else
    match parseOptInt (fields.getD 0 ""), parseOptFloat (fields.getD 4 ""),
        parseOptFloat (fields.getD 5 "") with
    | some gid, some lat, some lon =>
      if gidTruthy gid = true ∧ lat.isSome = true ∧ lon.isSome = true then
        let strAt : ℕ → Option String := fun i =>
          if fields.length > i then some (fields.getD i "") else none
        let strTruthyAt : ℕ → Option String := fun i =>
          if fields.length > i ∧ fields.getD i "" ≠ "" then some (fields.getD i "") else none
        { st with
          imported_count := st.imported_count + 1
          rows := insertOrIgnore st.rows
            { geonameid := gid.getD 0
              name := strAt 1
              asciiname := strAt 2
              latitude := lat.getD 0
              longitude := lon.getD 0
              feature_class := strAt 6
              feature_code := strAt 7
              country_code := strAt 8
              admin1_code := strTruthyAt 10
              admin2_code := strTruthyAt 11 } }
      else st
    | _, _, _ => { st with error_count := st.error_count + 1 }

/-- The PhotoRecord invariant of spec section 3: `status = processed`
implies a null error message, `status = failed` implies all EXIF-derived
columns are null. -/
def recordInvariant (r : PhotoRecord) : Prop :=
  (r.status = "processed" → r.error_message = none) ∧
  (r.status = "failed" →
    r.datetime = none ∧ r.camera_model = none ∧ r.lens_model = none ∧ r.iso = none ∧
    r.fnumber = none ∧ r.exposure_time = none ∧ r.focal_length = none ∧
    r.orientation = none ∧ r.gps_lat = none ∧ r.gps_lon = none ∧ r.location = none)

/- ------------------------------------------------------------------
   Helper lemmas
   ------------------------------------------------------------------ -/

lemma abs_sin_eq_sin_abs {x : ℝ} (h : |x| ≤ Real.pi) : |Real.sin x| = Real.sin |x| := by
  rcases le_or_lt 0 x with hx | hx
  · rw [abs_of_nonneg hx] at h ⊢
    exact abs_of_nonneg (Real.sin_nonneg_of_nonneg_of_le_pi hx h)
  · rw [abs_of_neg hx] at h ⊢
    rw [Real.sin_neg]
    have hs : Real.sin (-x) ≥ 0 := Real.sin_nonneg_of_nonneg_of_le_pi (by linarith) h
    rw [Real.sin_neg] at hs
    rw [abs_of_nonpos (by linarith)]

/-- Between two points on the same meridian the haversine formula
collapses to arc length along the meridian. -/
lemma haversine_sameLon (lat1 lat2 lon : ℝ) (h : |lat2 - lat1| ≤ 180) :
    haversine_distance lat1 lon lat2 lon = 6371 * (|lat2 - lat1| * Real.pi / 180) := by
  have hpi := Real.pi_pos
  simp only [haversine_distance, sub_self, zero_mul, zero_div, Real.sin_zero]
  rw [show (0:ℝ)^2 = 0 by ring, mul_zero, add_zero, Real.sqrt_sq_eq_abs]
  have habs : |(lat2 - lat1) * Real.pi / 180 / 2| = |lat2 - lat1| * Real.pi / 360 := by
    rw [abs_div, abs_div, abs_mul, abs_of_pos hpi]
    norm_num
    ring
  have hle : |(lat2 - lat1) * Real.pi / 180 / 2| ≤ Real.pi / 2 := by
    rw [habs]
    rw [div_le_div_iff₀ (by norm_num : (0:ℝ) < 360) (by norm_num : (0:ℝ) < 2)]
    nlinarith [abs_nonneg (lat2 - lat1)]
  rw [abs_sin_eq_sin_abs (le_trans hle (by linarith))]
  rw [Real.arcsin_sin (by linarith [abs_nonneg ((lat2 - lat1) * Real.pi / 180 / 2)]) hle]
  rw [habs]
  ring

lemma haversine_self (lat lon : ℝ) : haversine_distance lat lon lat lon = 0 := by
  rw [haversine_sameLon lat lat lon (by norm_num)]
  simp

lemma havMilli : haversine_distance 0 0 (1/1000) 0 = 6371 * ((1/1000) * Real.pi / 180) := by
  have habs : |(1/1000 : ℝ) - 0| = 1/1000 := by
    rw [sub_zero]
    exact abs_of_nonneg (by norm_num)
  rw [haversine_sameLon 0 (1/1000) 0 (by rw [habs]; norm_num), habs]

lemma havMilli_lt_half : haversine_distance 0 0 (1/1000) 0 < 0.5 := by
  rw [havMilli]
  have := Real.pi_lt_d2
  norm_num
  nlinarith

lemma havMilli_pos : 0 < haversine_distance 0 0 (1/1000) 0 := by
  rw [havMilli]
  have := Real.pi_pos
  positivity

lemma havOne : haversine_distance 0 0 1 0 = 6371 * (1 * Real.pi / 180) := by
  have habs : |(1 : ℝ) - 0| = 1 := by norm_num
  rw [haversine_sameLon 0 1 0 (by rw [habs]; norm_num), habs]

lemma havOne_not_lt_half : ¬ haversine_distance 0 0 1 0 < 0.5 := by
  rw [havOne]
  have := Real.pi_gt_three
  norm_num
  nlinarith

lemma format_isSome (name a cc : Option String) (h : pyTruthyStr name = true) :
    (format_location_string name a cc).isSome = true := by
  rw [format_location_string, if_neg (by rw [h]; simp)]
  rfl

lemma resolveCandidates_eval (lat lon maxd : ℝ) (c : GeoCandidate) (l : List GeoCandidate)
    (m : ℝ) (b : GeoCandidate) (h : scanCandidates lat lon (c :: l) none = some (m, b)) :
    resolveCandidates lat lon (c :: l) maxd =
      if m ≤ maxd then format_location_string b.name b.admin1_code b.country_code else none := by
  rw [resolveCandidates, if_neg (by simp), h]

lemma resolveCandidatesExhaustive_eval (lat lon maxd : ℝ) (c : GeoCandidate)
    (l : List GeoCandidate) (m : ℝ) (b : GeoCandidate)
    (h : scanCandidatesExhaustive lat lon (c :: l) none = some (m, b)) :
    resolveCandidatesExhaustive lat lon (c :: l) maxd =
      if m ≤ maxd then format_location_string b.name b.admin1_code b.country_code else none := by
  rw [resolveCandidatesExhaustive, if_neg (by simp), h]

/-- The scan either leaves its running state untouched or returns some
scanned candidate paired with its true haversine distance. -/
lemma scanCandidates_shape (lat lon : ℝ) :
    ∀ (l : List GeoCandidate) (st : Option (ℝ × GeoCandidate)),
      scanCandidates lat lon l st = st ∨
        ∃ c ∈ l, scanCandidates lat lon l st
          = some (haversine_distance lat lon c.lat c.lon, c) := by
  intro l
  induction l with
  | nil => intro st; left; rfl
  | cons c rest ih =>
    intro st
    match st with
    | none =>
      rw [scanCandidates]
      by_cases h : haversine_distance lat lon c.lat c.lon < 0.5
      · rw [if_pos h]
        right
        exact ⟨c, List.mem_cons_self c rest, rfl⟩
      · rw [if_neg h]
        rcases ih (some (haversine_distance lat lon c.lat c.lon, c)) with h2 | ⟨d, hd, h2⟩
        · right
          exact ⟨c, List.mem_cons_self c rest, h2⟩
        · right
          exact ⟨d, List.mem_cons_of_mem c hd, h2⟩
    | some (m, b) =>
      rw [scanCandidates]
      by_cases h : haversine_distance lat lon c.lat c.lon < m
      · rw [if_pos h]
        by_cases h1 : haversine_distance lat lon c.lat c.lon < 0.5
        · rw [if_pos h1]
          right
          exact ⟨c, List.mem_cons_self c rest, rfl⟩
        · rw [if_neg h1]
          rcases ih (some (haversine_distance lat lon c.lat c.lon, c)) with h2 | ⟨d, hd, h2⟩
          · right
            exact ⟨c, List.mem_cons_self c rest, h2⟩
          · right
            exact ⟨d, List.mem_cons_of_mem c hd, h2⟩
      · rw [if_neg h]
        rcases ih (some (m, b)) with h2 | ⟨d, hd, h2⟩
        · left
          exact h2
        · right
          exact ⟨d, List.mem_cons_of_mem c hd, h2⟩

/-- When the radius is at least the 0.5 km early-exit threshold and some
candidate (or the running state) is within the radius, the scan ends in
a state within the radius — whether or not the early exit fires. -/
lemma scanCandidates_reaches (lat lon maxd : ℝ) (hhalf : (0.5 : ℝ) ≤ maxd) :
    ∀ (l : List GeoCandidate) (st : Option (ℝ × GeoCandidate)),
      ((∃ c ∈ l, haversine_distance lat lon c.lat c.lon ≤ maxd) ∨
        (∃ m b, st = some (m, b) ∧ m ≤ maxd)) →
      ∃ m b, scanCandidates lat lon l st = some (m, b) ∧ m ≤ maxd := by
  intro l
  induction l with
  | nil =>
    intro st h
    rcases h with ⟨c, hc, _⟩ | ⟨m, b, hst, hm⟩
    · exact absurd hc (List.not_mem_nil c)
    · exact ⟨m, b, hst, hm⟩
  | cons c rest ih =>
    intro st h
    have hsplit : (∃ d ∈ rest, haversine_distance lat lon d.lat d.lon ≤ maxd) ∨
        haversine_distance lat lon c.lat c.lon ≤ maxd ∨
        (∃ m b, st = some (m, b) ∧ m ≤ maxd) := by
      rcases h with ⟨d, hd, hdle⟩ | hst
      · rcases List.mem_cons.mp hd with rfl | hd2
        · right; left; exact hdle
        · left; exact ⟨d, hd2, hdle⟩
      · right; right; exact hst
    match st with
    | none =>
      rw [scanCandidates]
      by_cases h1 : haversine_distance lat lon c.lat c.lon < 0.5
      · rw [if_pos h1]
        exact ⟨_, _, rfl, by linarith⟩
      · rw [if_neg h1]
        apply ih
        rcases hsplit with hrest | hcle | ⟨m, b, hst, hm⟩
        · left; exact hrest
        · right; exact ⟨_, _, rfl, hcle⟩
        · exact absurd hst (by simp)
    | some (m, b) =>
      rw [scanCandidates]
      by_cases h2 : haversine_distance lat lon c.lat c.lon < m
      · rw [if_pos h2]
        by_cases h1 : haversine_distance lat lon c.lat c.lon < 0.5
        · rw [if_pos h1]
          exact ⟨_, _, rfl, by linarith⟩
        · rw [if_neg h1]
          apply ih
          rcases hsplit with hrest | hcle | ⟨m2, b2, hst, hm2⟩
          · left; exact hrest
          · right; exact ⟨_, _, rfl, hcle⟩
          · right
            refine ⟨_, _, rfl, ?_⟩
            have hm2m : m2 = m := by
              simp at hst
              exact hst.1.symm
            linarith
      · rw [if_neg h2]
        apply ih
        rcases hsplit with hrest | hcle | ⟨m2, b2, hst, hm2⟩
        · left; exact hrest
        · right
          exact ⟨m, b, rfl, by linarith⟩
        · right
          refine ⟨m, b, rfl, ?_⟩
          have hm2m : m2 = m := by
            simp at hst
            exact hst.1.symm
          linarith

/-- With no candidate strictly inside the 0.5 km threshold, the break is
never reached and the early-exit scan equals the exhaustive scan. -/
lemma scanCandidates_noClose_eq (lat lon : ℝ) :
    ∀ (l : List GeoCandidate),
      (∀ c ∈ l, ¬ haversine_distance lat lon c.lat c.lon < 0.5) →
      ∀ st, scanCandidates lat lon l st = scanCandidatesExhaustive lat lon l st := by
  intro l
  induction l with
  | nil => intro _ st; rfl
  | cons c rest ih =>
    intro hfar st
    have hc : ¬ haversine_distance lat lon c.lat c.lon < 0.5 :=
      hfar c (List.mem_cons_self c rest)
    have hrest : ∀ d ∈ rest, ¬ haversine_distance lat lon d.lat d.lon < 0.5 :=
      fun d hd => hfar d (List.mem_cons_of_mem c hd)
    match st with
    | none =>
      rw [scanCandidates, scanCandidatesExhaustive, if_neg hc]
      exact ih hrest _
    | some (m, b) =>
      rw [scanCandidates, scanCandidatesExhaustive]
      by_cases h2 : haversine_distance lat lon c.lat c.lon < m
      · rw [if_pos h2, if_pos h2, if_neg hc]
        exact ih hrest _
      · rw [if_neg h2, if_neg h2]
        exact ih hrest _

lemma processedFiles_cons (r : PhotoRecord) (rest : List PhotoRecord) :
    processedFiles (r :: rest) =
      if r.status = "processed" then
        (r.filepath, (r.file_mtime, r.file_hash)) :: processedFiles rest
      else processedFiles rest := by
  by_cases h : r.status = "processed"
  · rw [if_pos h]
    simp [processedFiles, List.filter_cons, h]
  · rw [if_neg h]
    simp [processedFiles, List.filter_cons, h]

/-- A path all of whose records are failed never appears in the resume
snapshot. -/
lemma processedFiles_lookup_none (p : String) :
    ∀ db : List PhotoRecord, (∀ r ∈ db, r.filepath = p → r.status = "failed") →
      (processedFiles db).lookup p = none := by
  intro db
  induction db with
  | nil => intro _; rfl
  | cons r rest ih =>
    intro h
    have hrest : ∀ x ∈ rest, x.filepath = p → x.status = "failed" :=
      fun x hx => h x (List.mem_cons_of_mem r hx)
    rw [processedFiles_cons]
    by_cases hst : r.status = "processed"
    · rw [if_pos hst]
      have hne : ¬ r.filepath = p := by
        intro hfp
        have := h r (List.mem_cons_self r rest) hfp
        rw [hst] at this
        exact absurd this (by decide)
      rw [List.lookup]
      rw [show (p == r.filepath) = false from beq_eq_false_iff_ne.mpr fun hh => hne hh.symm]
      exact ih hrest
    · rw [if_neg hst]
      exact ih hrest

lemma extractAndStore_fst (resolve : ℚ → ℚ → Option String) (skiploc : Bool) (now : String)
    (db : List PhotoRecord) (stats : RunStats) (w : Bool) (f : FileInfo) :
    (extractAndStore resolve skiploc now db stats w f).1
      = upsert db (extractRecord resolve skiploc now f) := by
  unfold extractAndStore extractRecord
  cases f.extract <;> rfl

lemma extractAndStore_exif (resolve : ℚ → ℚ → Option String) (skiploc : Bool) (now : String)
    (db : List PhotoRecord) (stats : RunStats) (w : Bool) (f : FileInfo) (m : String)
    (h : f.extract = ExtractResult.exifError m) :
    extractAndStore resolve skiploc now db stats w f
      = (upsert db (failedRecord f now ("EXIF read error: " ++ m)),
         { stats with error_count := stats.error_count + 1 }) := by
  unfold extractAndStore
  rw [h]

lemma extractAndStore_other (resolve : ℚ → ℚ → Option String) (skiploc : Bool) (now : String)
    (db : List PhotoRecord) (stats : RunStats) (w : Bool) (f : FileInfo) (m : String)
    (h : f.extract = ExtractResult.otherError m) :
    extractAndStore resolve skiploc now db stats w f
      = (upsert db (failedRecord f now ("Processing error: " ++ m)),
         { stats with error_count := stats.error_count + 1 }) := by
  unfold extractAndStore
  rw [h]

lemma mem_upsert (db : List PhotoRecord) (r x : PhotoRecord) (hx : x ∈ upsert db r) :
    x ∈ db ∨ x = r := by
  unfold upsert at hx
  by_cases h : (db.any fun y => y.filepath == r.filepath) = true
  · rw [if_pos h] at hx
    rcases List.mem_map.mp hx with ⟨y, hy, hyx⟩
    by_cases h2 : (y.filepath == r.filepath) = true
    · rw [if_pos h2] at hyx
      right
      exact hyx.symm
    · rw [if_neg h2] at hyx
      left
      rw [← hyx]
      exact hy
  · rw [if_neg h] at hx
    rcases List.mem_append.mp hx with h1 | h1
    · left
      exact h1
    · right
      exact List.mem_singleton.mp h1

lemma extractRecord_filepath (resolve : ℚ → ℚ → Option String) (skiploc : Bool) (now : String)
    (f : FileInfo) : (extractRecord resolve skiploc now f).filepath = f.filepath := by
  unfold extractRecord
  cases f.extract <;> rfl

lemma extractRecord_props (resolve : ℚ → ℚ → Option String) (skiploc : Bool) (now : String)
    (f : FileInfo) :
    (extractRecord resolve skiploc now f).filepath = f.filepath ∧
    (extractRecord resolve skiploc now f).file_hash = f.hash ∧
    (extractRecord resolve skiploc now f).file_mtime = f.mtime ∧
    (extractRecord resolve skiploc now f).processed_at = now ∧
    recordInvariant (extractRecord resolve skiploc now f) := by
  unfold recordInvariant
  cases hfe : f.extract with
  | ok tags =>
    have he : extractRecord resolve skiploc now f = okRecord resolve skiploc now f tags := by
      unfold extractRecord
      rw [hfe]
    rw [he]
    exact ⟨rfl, rfl, rfl, rfl, fun _ => rfl, fun h => by simp [okRecord] at h⟩
  | exifError m =>
    have he : extractRecord resolve skiploc now f
        = failedRecord f now ("EXIF read error: " ++ m) := by
      unfold extractRecord
      rw [hfe]
    rw [he]
    exact ⟨rfl, rfl, rfl, rfl, fun h => by simp [failedRecord] at h,
      fun _ => ⟨rfl, rfl, rfl, rfl, rfl, rfl, rfl, rfl, rfl, rfl, rfl⟩⟩
  | otherError m =>
    have he : extractRecord resolve skiploc now f
        = failedRecord f now ("Processing error: " ++ m) := by
      unfold extractRecord
      rw [hfe]
    rw [he]
    exact ⟨rfl, rfl, rfl, rfl, fun h => by simp [failedRecord] at h,
      fun _ => ⟨rfl, rfl, rfl, rfl, rfl, rfl, rfl, rfl, rfl, rfl, rfl⟩⟩

/-- Any record in the table after one loop step was either already there
or is the record of this file's extraction attempt. -/
lemma processOneFile_mem (resolve : ℚ → ℚ → Option String) (skiploc : Bool) (now : String)
    (pf : List (String × (Option ℚ × Option String))) (st : List PhotoRecord × RunStats)
    (f : FileInfo) (x : PhotoRecord) (hx : x ∈ (processOneFile resolve skiploc now pf st f).1) :
    x ∈ st.1 ∨ x = extractRecord resolve skiploc now f := by
  unfold processOneFile at hx
  split at hx
  · left
    exact hx
  · split at hx
    · split at hx
      · left
        exact hx
      · rw [extractAndStore_fst] at hx
        exact mem_upsert _ _ _ hx
    · rw [extractAndStore_fst] at hx
      exact mem_upsert _ _ _ hx

lemma foldl_processOneFile_mem (resolve : ℚ → ℚ → Option String) (skiploc : Bool) (now : String)
    (pf : List (String × (Option ℚ × Option String))) :
    ∀ (files : List FileInfo) (st : List PhotoRecord × RunStats) (x : PhotoRecord),
      x ∈ (files.foldl (processOneFile resolve skiploc now pf) st).1 →
      x ∈ st.1 ∨ ∃ f ∈ files, x = extractRecord resolve skiploc now f := by
  intro files
  induction files with
  | nil =>
    intro st x hx
    left
    exact hx
  | cons f rest ih =>
    intro st x hx
    rw [List.foldl_cons] at hx
    rcases ih _ x hx with hmem | ⟨g, hg, hxe⟩
    · rcases processOneFile_mem resolve skiploc now pf st f x hmem with h1 | h2
      · left
        exact h1
      · right
        exact ⟨f, List.mem_cons_self f rest, h2⟩
    · right
      exact ⟨g, List.mem_cons_of_mem f hg, hxe⟩

lemma processOneFile_missing (resolve : ℚ → ℚ → Option String) (skiploc : Bool) (now : String)
    (pf : List (String × (Option ℚ × Option String))) (st : List PhotoRecord × RunStats)
    (f : FileInfo) (hex : f.exists_now = false) :
    processOneFile resolve skiploc now pf st f
      = (st.1, { st.2 with error_count := st.2.error_count + 1 }) := by
  unfold processOneFile
  rw [hex]
  exact if_pos rfl

lemma processOneFile_new (resolve : ℚ → ℚ → Option String) (skiploc : Bool) (now : String)
    (pf : List (String × (Option ℚ × Option String))) (st : List PhotoRecord × RunStats)
    (f : FileInfo) (hex : f.exists_now = true)
    (hpf : pf.lookup f.filepath = none) :
    processOneFile resolve skiploc now pf st f
      = extractAndStore resolve skiploc now st.1 st.2 false f := by
  unfold processOneFile
  rw [hex, hpf]
  exact if_neg (by simp)

lemma processOneFile_skip (resolve : ℚ → ℚ → Option String) (skiploc : Bool) (now : String)
    (pf : List (String × (Option ℚ × Option String))) (st : List PhotoRecord × RunStats)
    (f : FileInfo) (sm : Option ℚ) (sh : Option String) (hex : f.exists_now = true)
    (hpf : pf.lookup f.filepath = some (sm, sh))
    (hc : qTruthy f.mtime = true ∧ qTruthy sm = true ∧ f.mtime = sm) :
    processOneFile resolve skiploc now pf st f
      = (st.1, { st.2 with skipped_count := st.2.skipped_count + 1 }) := by
  unfold processOneFile
  rw [hex, hpf]
  rw [if_neg (by simp)]
  exact if_pos hc

lemma processOneFile_changed (resolve : ℚ → ℚ → Option String) (skiploc : Bool) (now : String)
    (pf : List (String × (Option ℚ × Option String))) (st : List PhotoRecord × RunStats)
    (f : FileInfo) (sm : Option ℚ) (sh : Option String) (hex : f.exists_now = true)
    (hpf : pf.lookup f.filepath = some (sm, sh))
    (hc : ¬ (qTruthy f.mtime = true ∧ qTruthy sm = true ∧ f.mtime = sm)) :
    processOneFile resolve skiploc now pf st f
      = extractAndStore resolve skiploc now st.1
          { st.2 with updated_count := st.2.updated_count + 1 } true f := by
  unfold processOneFile
  rw [hex, hpf]
  rw [if_neg (by simp)]
  exact if_neg hc

lemma upsert_fresh (db : List PhotoRecord) (r : PhotoRecord)
    (h : ∀ x ∈ db, x.filepath ≠ r.filepath) : upsert db r = db ++ [r] := by
  rw [upsert, if_neg]
  simp only [List.any_eq_true, beq_iff_eq, not_exists]
  intro x
  rintro ⟨hx, hfp⟩
  exact h x hx hfp

/-- A run over files that are all present, all new to the snapshot, and
pairwise distinct appends exactly one extraction record per file. -/
lemma foldl_fresh_append (resolve : ℚ → ℚ → Option String) (skiploc : Bool) (now : String) :
    ∀ (files : List FileInfo) (db : List PhotoRecord) (stats : RunStats),
      (∀ f ∈ files, f.exists_now = true) →
      (∀ f ∈ files, ∀ r ∈ db, r.filepath ≠ f.filepath) →
      (files.map FileInfo.filepath).Nodup →
      (files.foldl (processOneFile resolve skiploc now []) (db, stats)).1
        = db ++ files.map (extractRecord resolve skiploc now) := by
  intro files
  induction files with
  | nil =>
    intro db stats _ _ _
    simp
  | cons f rest ih =>
    intro db stats hex hfresh hnodup
    rw [List.foldl_cons]
    rw [processOneFile_new resolve skiploc now [] (db, stats) f
      (hex f (List.mem_cons_self f rest)) rfl]
    have hpair : extractAndStore resolve skiploc now db stats false f
        = (upsert db (extractRecord resolve skiploc now f),
           (extractAndStore resolve skiploc now db stats false f).2) := by
      rw [← extractAndStore_fst resolve skiploc now db stats false f]
    rw [hpair]
    have hupsert : upsert db (extractRecord resolve skiploc now f)
        = db ++ [extractRecord resolve skiploc now f] := by
      apply upsert_fresh
      intro x hx
      rw [extractRecord_filepath]
      exact hfresh f (List.mem_cons_self f rest) x hx
    rw [hupsert]
    rw [ih (db ++ [extractRecord resolve skiploc now f])
      (extractAndStore resolve skiploc now db stats false f).2
      (fun g hg => hex g (List.mem_cons_of_mem f hg))
      ?hfresh (List.nodup_cons.mp hnodup).2]
    · simp
    case hfresh =>
      intro g hg r hr
      rcases List.mem_append.mp hr with h1 | h1
      · exact hfresh g (List.mem_cons_of_mem f hg) r h1
      · rw [List.mem_singleton.mp h1, extractRecord_filepath]
        intro hfg
        have hmem : g.filepath ∈ rest.map FileInfo.filepath := List.mem_map_of_mem _ hg
        rw [← hfg] at hmem
        exact (List.nodup_cons.mp hnodup).1 hmem

lemma extractRecord_ok_fields (resolve : ℚ → ℚ → Option String) (skiploc : Bool) (now : String)
    (f : FileInfo) (tags : ExifTags) (h : f.extract = ExtractResult.ok tags) :
    (extractRecord resolve skiploc now f).status = "processed" := by
  unfold extractRecord
  rw [h]
  rfl

/-- The snapshot built from the table written by an all-successful run
maps each file's path to its (mtime, hash) pair, in file order. -/
lemma processedFiles_of_ok_map (resolve : ℚ → ℚ → Option String) (skiploc : Bool) (now : String) :
    ∀ files : List FileInfo, (∀ f ∈ files, ∃ tags, f.extract = ExtractResult.ok tags) →
      processedFiles (files.map (extractRecord resolve skiploc now))
        = files.map fun f => (f.filepath, (f.mtime, f.hash)) := by
  intro files
  induction files with
  | nil => intro _; rfl
  | cons f rest ih =>
    intro hok
    rw [List.map_cons, processedFiles_cons]
    obtain ⟨tags, htags⟩ := hok f (List.mem_cons_self f rest)
    rw [if_pos (extractRecord_ok_fields resolve skiploc now f tags htags)]
    rw [ih fun g hg => hok g (List.mem_cons_of_mem f hg)]
    rw [extractRecord_filepath]
    have h2 : (extractRecord resolve skiploc now f).file_mtime = f.mtime :=
      (extractRecord_props resolve skiploc now f).2.2.1
    have h3 : (extractRecord resolve skiploc now f).file_hash = f.hash :=
      (extractRecord_props resolve skiploc now f).2.1
    rw [h2, h3, List.map_cons]

lemma lookup_map_self :
    ∀ (files : List FileInfo) (g : FileInfo), g ∈ files →
      (files.map FileInfo.filepath).Nodup →
      (files.map fun f => (f.filepath, (f.mtime, f.hash))).lookup g.filepath
        = some (g.mtime, g.hash) := by
  intro files
  induction files with
  | nil =>
    intro g hg _
    exact absurd hg (List.not_mem_nil g)
  | cons f rest ih =>
    intro g hg hnodup
    rw [List.map_cons, List.lookup]
    rcases List.mem_cons.mp hg with rfl | hg2
    · rw [show (g.filepath == g.filepath) = true from beq_self_eq_true _]
    · have hne : g.filepath ≠ f.filepath := by
        intro hfg
        have hmem : g.filepath ∈ rest.map FileInfo.filepath := List.mem_map_of_mem _ hg2
        rw [hfg] at hmem
        exact (List.nodup_cons.mp hnodup).1 hmem
      rw [show (g.filepath == f.filepath) = false from beq_eq_false_iff_ne.mpr hne]
      exact ih g hg2 (List.nodup_cons.mp hnodup).2

/-- A run over files that are all present with truthy, unchanged mtimes
recorded in the snapshot leaves the table untouched and counts every
file as skipped. -/
lemma foldl_skip_all (resolve : ℚ → ℚ → Option String) (skiploc : Bool) (now : String)
    (pf : List (String × (Option ℚ × Option String))) :
    ∀ (files : List FileInfo) (db : List PhotoRecord) (stats : RunStats),
      (∀ f ∈ files, f.exists_now = true ∧ qTruthy f.mtime = true ∧
        pf.lookup f.filepath = some (f.mtime, f.hash)) →
      files.foldl (processOneFile resolve skiploc now pf) (db, stats)
        = (db, { stats with skipped_count := stats.skipped_count + files.length }) := by
  intro files
  induction files with
  | nil =>
    intro db stats _
    simp
  | cons f rest ih =>
    intro db stats h
    obtain ⟨hex, htr, hlk⟩ := h f (List.mem_cons_self f rest)
    rw [List.foldl_cons]
    rw [processOneFile_skip resolve skiploc now pf (db, stats) f f.mtime f.hash hex hlk
      ⟨htr, htr, rfl⟩]
    rw [ih db _ fun g hg => h g (List.mem_cons_of_mem f hg)]
    have harith : stats.skipped_count + 1 + rest.length
        = stats.skipped_count + (rest.length + 1) := by omega
    simp [harith]

/- ------------------------------------------------------------------
   Claim theorems
   ------------------------------------------------------------------ -/

/-- Claim C2, counterexample.  At the triple (39, 6, 1116/100) — the
spec's own round-trip example (39°, 6', 11.16") N — the exact value of
degrees + minutes/60 + seconds/3600 is 391031/10000, which is not a
dyadic rational; since every finite IEEE-754 binary64 value is dyadic,
the float implementation of `dms_to_decimal` cannot return this value
exactly, refuting the claim that the result is exact with respect to the
source rational arithmetic on non-integer rational components. -/
theorem C2_counterexample :
    dms_to_decimal (⟨39, 1⟩, ⟨6, 1⟩, ⟨1116, 100⟩) "N" = 391031 / 10000 ∧
    ¬ IsDyadicRat (391031 / 10000 : ℚ) := by
  constructor
  · rw [dms_to_decimal, if_neg (by simp)]
    norm_num
  · rintro ⟨m, e, h⟩
    have h' : (391031 : ℚ) * 2 ^ e = m * 10000 := by
      field_simp at h
      linarith
    have hz : (391031 : ℤ) * 2 ^ e = m * 10000 := by exact_mod_cast h'
    have h5 : (5 : ℤ) ∣ 391031 * 2 ^ e := hz ▸ ⟨m * 2000, by ring⟩
    have hp : Prime (5 : ℤ) := by norm_num
    rcases hp.dvd_mul.mp h5 with h51 | h52
    · norm_num at h51
    · have := hp.dvd_of_dvd_pow h52
      norm_num at this

/-- Claim C2, amended: in the exact rational semantics,
`dms_to_decimal` returns degrees + minutes/60 + seconds/3600 for the
references N and E and negates it exactly for S and W; but (per the
counterexample) the float implementation realises this only up to
binary64 rounding, exactly representing the value only when it is
dyadic. -/
theorem C2_formula_and_sign (d m s : ExifRational) :
    dms_to_decimal (d, m, s) "N" = ratVal d + ratVal m / 60 + ratVal s / 3600 ∧
    dms_to_decimal (d, m, s) "E" = ratVal d + ratVal m / 60 + ratVal s / 3600 ∧
    dms_to_decimal (d, m, s) "S" = -dms_to_decimal (d, m, s) "N" ∧
    dms_to_decimal (d, m, s) "W" = -dms_to_decimal (d, m, s) "N" := by
  refine ⟨?_, ?_, ?_, ?_⟩
  · rw [dms_to_decimal, if_neg (by simp)]
    rfl
  · rw [dms_to_decimal, if_neg (by simp)]
    rfl
  · rw [dms_to_decimal, if_pos (Or.inl rfl)]
    rw [dms_to_decimal, if_neg (by simp)]
  · rw [dms_to_decimal, if_pos (Or.inr rfl)]
    rw [dms_to_decimal, if_neg (by simp)]

/-- Claim C3: a per-file failure at the extraction boundary — a corrupt
tag block (`ExifReadError`) or any other exception during read/parse —
is converted into an upserted record with status `failed`, all
EXIF-derived fields null, a non-null error message carrying the
exception text, and the recomputed path/hash/mtime; and the loop simply
folds on to the remaining files, so no failure propagates out of it. -/
theorem C3_per_file_failure_recorded (resolve : ℚ → ℚ → Option String) (skiploc : Bool)
    (now : String) (pf : List (String × (Option ℚ × Option String))) (db : List PhotoRecord)
    (stats : RunStats) (f : FileInfo) (msg : String)
    (hex : f.exists_now = true)
    (hnew : pf.lookup f.filepath = none) :
    (f.extract = ExtractResult.exifError msg →
      processOneFile resolve skiploc now pf (db, stats) f
        = (upsert db (failedRecord f now ("EXIF read error: " ++ msg)),
            { stats with error_count := stats.error_count + 1 })) ∧
    (f.extract = ExtractResult.otherError msg →
      processOneFile resolve skiploc now pf (db, stats) f
        = (upsert db (failedRecord f now ("Processing error: " ++ msg)),
            { stats with error_count := stats.error_count + 1 })) ∧
    (∀ m : String,
      (failedRecord f now m).status = "failed" ∧
      (failedRecord f now m).error_message = some m ∧
      (failedRecord f now m).filepath = f.filepath ∧
      (failedRecord f now m).file_hash = f.hash ∧
      (failedRecord f now m).file_mtime = f.mtime ∧
      (failedRecord f now m).datetime = none ∧
      (failedRecord f now m).camera_model = none ∧
      (failedRecord f now m).lens_model = none ∧
      (failedRecord f now m).iso = none ∧
      (failedRecord f now m).fnumber = none ∧
      (failedRecord f now m).exposure_time = none ∧
      (failedRecord f now m).focal_length = none ∧
      (failedRecord f now m).orientation = none ∧
      (failedRecord f now m).gps_lat = none ∧
      (failedRecord f now m).gps_lon = none ∧
      (failedRecord f now m).location = none) ∧
    (∀ rest : List FileInfo,
      (f :: rest).foldl (processOneFile resolve skiploc now pf) (db, stats)
        = rest.foldl (processOneFile resolve skiploc now pf)
            (processOneFile resolve skiploc now pf (db, stats) f)) := by
  refine ⟨?_, ?_, ?_, ?_⟩
  · intro hfail
    rw [processOneFile_new resolve skiploc now pf (db, stats) f hex hnew]
    exact extractAndStore_exif resolve skiploc now db stats false f msg hfail
  · intro hfail
    rw [processOneFile_new resolve skiploc now pf (db, stats) f hex hnew]
    exact extractAndStore_other resolve skiploc now db stats false f msg hfail
  · intro m
    exact ⟨rfl, rfl, rfl, rfl, rfl, rfl, rfl, rfl, rfl, rfl, rfl, rfl, rfl, rfl, rfl, rfl⟩
  · intro rest
    rw [List.foldl_cons]

/-- Claim C3, witness: the theorem applied to a concrete corrupt file
against an empty table. -/
theorem C3_per_file_failure_recorded_witness :
    ((⟨"d/corrupt.jpg", true, some 4, some "hh", ExtractResult.exifError "truncated"⟩ :
        FileInfo).exists_now = true ∧
      (([] : List (String × (Option ℚ × Option String))).lookup "d/corrupt.jpg" = none)) ∧
    ((⟨"d/corrupt.jpg", true, some 4, some "hh",
        ExtractResult.exifError "truncated"⟩ : FileInfo).extract
          = ExtractResult.exifError "truncated" →
      processOneFile (fun _ _ => none) false "t0" [] ([], initialStats)
          ⟨"d/corrupt.jpg", true, some 4, some "hh", ExtractResult.exifError "truncated"⟩
        = (upsert [] (failedRecord
            ⟨"d/corrupt.jpg", true, some 4, some "hh", ExtractResult.exifError "truncated"⟩
            "t0" ("EXIF read error: " ++ "truncated")),
            { initialStats with error_count := initialStats.error_count + 1 })) :=
  ⟨⟨rfl, rfl⟩,
    (C3_per_file_failure_recorded (fun _ _ => none) false "t0" [] [] initialStats
      ⟨"d/corrupt.jpg", true, some 4, some "hh", ExtractResult.exifError "truncated"⟩
      "truncated" rfl rfl).1⟩

/-- Claim C10: for a present file with a snapshot entry, the skip
decision fires exactly when the current mtime is truthy (present and
nonzero), the stored mtime is truthy, and the two are equal — so a file
whose recorded or current mtime is None or 0.0 is re-extracted (the
changed-file branch of `extractAndStore`) even when the two mtimes are
equal. -/
theorem C10_mtime_truthiness_gate (resolve : ℚ → ℚ → Option String) (skiploc : Bool)
    (now : String) (pf : List (String × (Option ℚ × Option String))) (db : List PhotoRecord)
    (stats : RunStats) (f : FileInfo) (sm : Option ℚ) (sh : Option String)
    (hex : f.exists_now = true)
    (hpf : pf.lookup f.filepath = some (sm, sh)) :
    ((qTruthy f.mtime = true ∧ qTruthy sm = true ∧ f.mtime = sm) →
      processOneFile resolve skiploc now pf (db, stats) f
        = (db, { stats with skipped_count := stats.skipped_count + 1 })) ∧
    (¬ (qTruthy f.mtime = true ∧ qTruthy sm = true ∧ f.mtime = sm) →
      processOneFile resolve skiploc now pf (db, stats) f
        = extractAndStore resolve skiploc now db
            { stats with updated_count := stats.updated_count + 1 } true f) := by
  constructor
  · intro hc
    exact processOneFile_skip resolve skiploc now pf (db, stats) f sm sh hex hpf hc
  · intro hc
    exact processOneFile_changed resolve skiploc now pf (db, stats) f sm sh hex hpf hc

/-- Claim C10, witness: a file whose stored and current mtimes are both
0.0 (equal and unchanged) is nevertheless re-extracted. -/
theorem C10_mtime_truthiness_gate_witness :
    ((⟨"p/zero.jpg", true, some 0, some "h0", ExtractResult.exifError "e"⟩ :
        FileInfo).exists_now = true ∧
      ([("p/zero.jpg", ((some 0 : Option ℚ), (some "h0" : Option String)))].lookup
        "p/zero.jpg" = some (some 0, some "h0")) ∧
      ¬ (qTruthy (some 0) = true ∧ qTruthy (some 0) = true ∧
          (some (0 : ℚ) : Option ℚ) = some 0)) ∧
    processOneFile (fun _ _ => none) false "t0"
        [("p/zero.jpg", (some 0, some "h0"))] ([], initialStats)
        ⟨"p/zero.jpg", true, some 0, some "h0", ExtractResult.exifError "e"⟩
      = extractAndStore (fun _ _ => none) false "t0" []
          { initialStats with updated_count := initialStats.updated_count + 1 } true
          ⟨"p/zero.jpg", true, some 0, some "h0", ExtractResult.exifError "e"⟩ :=
  ⟨⟨rfl, by decide, by decide⟩,
    (C10_mtime_truthiness_gate (fun _ _ => none) false "t0"
      [("p/zero.jpg", (some 0, some "h0"))] [] initialStats
      ⟨"p/zero.jpg", true, some 0, some "h0", ExtractResult.exifError "e"⟩
      (some 0) (some "h0") rfl (by decide)).2 (by decide)⟩

/-- Claim C1, counterexample.  A file whose only stored record has
status `failed` and whose mtime and hash are unchanged is re-extracted
by the next non-forced run: the second run skips nothing and rewrites
the failed record (its `processed_at` moves from the first run's
timestamp to the second's), because the resume snapshot is built from
`WHERE status = 'processed'` rows only. -/
theorem C1_counterexample :
    (processRun (fun _ _ => none) false false "2026-01-01"
        [⟨"pics/broken.jpg", true, some 7, some "h1", ExtractResult.exifError "bad ifd"⟩] []).1
      = [failedRecord ⟨"pics/broken.jpg", true, some 7, some "h1",
          ExtractResult.exifError "bad ifd"⟩ "2026-01-01" "EXIF read error: bad ifd"] ∧
    (processRun (fun _ _ => none) false false "2026-01-02"
        [⟨"pics/broken.jpg", true, some 7, some "h1", ExtractResult.exifError "bad ifd"⟩]
        [failedRecord ⟨"pics/broken.jpg", true, some 7, some "h1",
          ExtractResult.exifError "bad ifd"⟩ "2026-01-01" "EXIF read error: bad ifd"]).2.skipped_count
      = 0 ∧
    (processRun (fun _ _ => none) false false "2026-01-02"
        [⟨"pics/broken.jpg", true, some 7, some "h1", ExtractResult.exifError "bad ifd"⟩]
        [failedRecord ⟨"pics/broken.jpg", true, some 7, some "h1",
          ExtractResult.exifError "bad ifd"⟩ "2026-01-01" "EXIF read error: bad ifd"]).1
      = [failedRecord ⟨"pics/broken.jpg", true, some 7, some "h1",
          ExtractResult.exifError "bad ifd"⟩ "2026-01-02" "EXIF read error: bad ifd"] := by
  refine ⟨?_, ?_, ?_⟩ <;> decide

/-- Claim C1, amended: only records with status `processed` enter the
resume snapshot, so a present file all of whose stored records have
status `failed` is never skipped — it goes straight back into
extraction on every non-forced run, regardless of its hash or mtime. -/
theorem C1_failed_status_not_skipped (resolve : ℚ → ℚ → Option String) (skiploc : Bool)
    (now : String) (db : List PhotoRecord) (stats : RunStats) (f : FileInfo)
    (hex : f.exists_now = true)
    (hfailed : ∀ r ∈ db, r.filepath = f.filepath → r.status = "failed") :
    processOneFile resolve skiploc now (processedFiles db) (db, stats) f
      = extractAndStore resolve skiploc now db stats false f :=
  processOneFile_new resolve skiploc now (processedFiles db) (db, stats) f hex
    (processedFiles_lookup_none f.filepath db hfailed)

/-- Claim C1, witness: the amended theorem applied to a table holding
one failed record for the file's path. -/
theorem C1_failed_status_not_skipped_witness :
    ((⟨"pics/broken.jpg", true, some 7, some "h1", ExtractResult.exifError "bad ifd"⟩ :
        FileInfo).exists_now = true ∧
      (∀ r ∈ [failedRecord ⟨"pics/broken.jpg", true, some 7, some "h1",
          ExtractResult.exifError "bad ifd"⟩ "2026-01-01" "EXIF read error: bad ifd"],
        r.filepath = "pics/broken.jpg" → r.status = "failed")) ∧
    processOneFile (fun _ _ => none) false "2026-01-02"
        (processedFiles [failedRecord ⟨"pics/broken.jpg", true, some 7, some "h1",
          ExtractResult.exifError "bad ifd"⟩ "2026-01-01" "EXIF read error: bad ifd"])
        ([failedRecord ⟨"pics/broken.jpg", true, some 7, some "h1",
          ExtractResult.exifError "bad ifd"⟩ "2026-01-01" "EXIF read error: bad ifd"],
          initialStats)
        ⟨"pics/broken.jpg", true, some 7, some "h1", ExtractResult.exifError "bad ifd"⟩
      = extractAndStore (fun _ _ => none) false "2026-01-02"
          [failedRecord ⟨"pics/broken.jpg", true, some 7, some "h1",
            ExtractResult.exifError "bad ifd"⟩ "2026-01-01" "EXIF read error: bad ifd"]
          initialStats false
          ⟨"pics/broken.jpg", true, some 7, some "h1", ExtractResult.exifError "bad ifd"⟩ :=
  ⟨⟨rfl, by decide⟩,
    C1_failed_status_not_skipped (fun _ _ => none) false "2026-01-02"
      [failedRecord ⟨"pics/broken.jpg", true, some 7, some "h1",
        ExtractResult.exifError "bad ifd"⟩ "2026-01-01" "EXIF read error: bad ifd"]
      initialStats
      ⟨"pics/broken.jpg", true, some 7, some "h1", ExtractResult.exifError "bad ifd"⟩
      rfl (by decide)⟩

/-- Claim C7: every record in the table after a run either predates the
run or satisfies the PhotoRecord invariant — status `processed` implies
a null error message, status `failed` implies all EXIF-derived fields
are null — and additionally carries this run's processing timestamp and
the path, hash and mtime of one of the run's files. -/
theorem C7_record_invariant (resolve : ℚ → ℚ → Option String)
    (force skiploc : Bool) (now : String) (files : List FileInfo) (db : List PhotoRecord) :
    ∀ r ∈ (processRun resolve force skiploc now files db).1,
      r ∈ db ∨ (recordInvariant r ∧ r.processed_at = now ∧
        ∃ f ∈ files, r.filepath = f.filepath ∧ r.file_hash = f.hash ∧
          r.file_mtime = f.mtime) := by
  intro r hr
  simp only [processRun] at hr
  rcases foldl_processOneFile_mem resolve skiploc now _ files (db, initialStats) r hr with
    hdb | ⟨f, hf, hre⟩
  · left
    exact hdb
  · right
    obtain ⟨h1, h2, h3, h4, h5⟩ := extractRecord_props resolve skiploc now f
    rw [hre]
    exact ⟨h5, h4, f, hf, h1, h2, h3⟩

/-- Claim C7, witness: the invariant instantiated at the failed record a
run over one corrupt file writes into an empty table. -/
theorem C7_record_invariant_witness :
    failedRecord ⟨"w/only.jpg", true, some 9, some "h9", ExtractResult.exifError "bad"⟩
        "tw" "EXIF read error: bad"
      ∈ (processRun (fun _ _ => none) false false "tw"
          [⟨"w/only.jpg", true, some 9, some "h9", ExtractResult.exifError "bad"⟩] []).1 ∧
    (failedRecord ⟨"w/only.jpg", true, some 9, some "h9", ExtractResult.exifError "bad"⟩
        "tw" "EXIF read error: bad" ∈ ([] : List PhotoRecord) ∨
      (recordInvariant (failedRecord ⟨"w/only.jpg", true, some 9, some "h9",
          ExtractResult.exifError "bad"⟩ "tw" "EXIF read error: bad") ∧
        (failedRecord ⟨"w/only.jpg", true, some 9, some "h9", ExtractResult.exifError "bad"⟩
          "tw" "EXIF read error: bad").processed_at = "tw" ∧
        ∃ f ∈ [(⟨"w/only.jpg", true, some 9, some "h9", ExtractResult.exifError "bad"⟩ :
            FileInfo)],
          (failedRecord ⟨"w/only.jpg", true, some 9, some "h9", ExtractResult.exifError "bad"⟩
            "tw" "EXIF read error: bad").filepath = f.filepath ∧
          (failedRecord ⟨"w/only.jpg", true, some 9, some "h9", ExtractResult.exifError "bad"⟩
            "tw" "EXIF read error: bad").file_hash = f.hash ∧
          (failedRecord ⟨"w/only.jpg", true, some 9, some "h9", ExtractResult.exifError "bad"⟩
            "tw" "EXIF read error: bad").file_mtime = f.mtime)) :=
  ⟨by decide,
    C7_record_invariant (fun _ _ => none) false false "tw"
      [⟨"w/only.jpg", true, some 9, some "h9", ExtractResult.exifError "bad"⟩] []
      (failedRecord ⟨"w/only.jpg", true, some 9, some "h9", ExtractResult.exifError "bad"⟩
        "tw" "EXIF read error: bad") (by decide)⟩

/-- Claim C8, counterexample.  A directory with one file whose
extraction fails, unchanged between two runs: the first run stores a
failed record; the second run re-extracts it (skipped count 0, not the
file count 1) and rewrites the record with the new run's timestamp, so
the stored records are not identical across the two runs. -/
theorem C8_counterexample :
    (processRun (fun _ _ => none) false false "r1"
        [⟨"photos/corrupt.png", true, some 3, some "hc", ExtractResult.otherError "boom"⟩] []).1
      = [failedRecord ⟨"photos/corrupt.png", true, some 3, some "hc",
          ExtractResult.otherError "boom"⟩ "r1" "Processing error: boom"] ∧
    (processRun (fun _ _ => none) false false "r2"
        [⟨"photos/corrupt.png", true, some 3, some "hc", ExtractResult.otherError "boom"⟩]
        [failedRecord ⟨"photos/corrupt.png", true, some 3, some "hc",
          ExtractResult.otherError "boom"⟩ "r1" "Processing error: boom"]).2.skipped_count
      = 0 ∧
    ¬ (processRun (fun _ _ => none) false false "r2"
        [⟨"photos/corrupt.png", true, some 3, some "hc", ExtractResult.otherError "boom"⟩]
        [failedRecord ⟨"photos/corrupt.png", true, some 3, some "hc",
          ExtractResult.otherError "boom"⟩ "r1" "Processing error: boom"]).1
      = [failedRecord ⟨"photos/corrupt.png", true, some 3, some "hc",
          ExtractResult.otherError "boom"⟩ "r1" "Processing error: boom"] := by
  refine ⟨?_, ?_, ?_⟩ <;> decide

/-- Claim C8, amended: when every file of the unchanged directory is
present, extracts successfully, and has a truthy (present, nonzero)
mtime — i.e. the first run ends with every file processed — a second
non-forced run leaves the stored records identical and skips exactly
the number of files found.  (Per the counterexample, a file that failed
in the first run, or one with a falsy mtime, is re-extracted instead.) -/
theorem C8_unchanged_idempotent (resolve : ℚ → ℚ → Option String) (skiploc : Bool)
    (t1 t2 : String) (files : List FileInfo)
    (hnodup : (files.map FileInfo.filepath).Nodup)
    (hok : ∀ f ∈ files, f.exists_now = true ∧ qTruthy f.mtime = true ∧
      ∃ tags, f.extract = ExtractResult.ok tags) :
    (processRun resolve false skiploc t2 files
        (processRun resolve false skiploc t1 files []).1).1
      = (processRun resolve false skiploc t1 files []).1 ∧
    (processRun resolve false skiploc t2 files
        (processRun resolve false skiploc t1 files []).1).2.skipped_count
      = files.length := by
  have hdb1 : (processRun resolve false skiploc t1 files []).1
      = files.map (extractRecord resolve skiploc t1) := by
    have h1 := foldl_fresh_append resolve skiploc t1 files [] initialStats
      (fun f hf => (hok f hf).1)
      (fun f _ r hr => absurd hr (List.not_mem_nil r)) hnodup
    show (files.foldl (processOneFile resolve skiploc t1 []) ([], initialStats)).1
      = files.map (extractRecord resolve skiploc t1)
    rw [h1]
    simp
  have hpf2 := processedFiles_of_ok_map resolve skiploc t1 files
    (fun f hf => (hok f hf).2.2)
  have hskip := foldl_skip_all resolve skiploc t2
    (files.map fun f => (f.filepath, (f.mtime, f.hash))) files
    (files.map (extractRecord resolve skiploc t1)) initialStats
    (fun f hf => ⟨(hok f hf).1, (hok f hf).2.1, lookup_map_self files f hf hnodup⟩)
  constructor
  · rw [hdb1]
    show (files.foldl (processOneFile resolve skiploc t2
        (processedFiles (files.map (extractRecord resolve skiploc t1))))
        (files.map (extractRecord resolve skiploc t1), initialStats)).1
      = files.map (extractRecord resolve skiploc t1)
    rw [hpf2, hskip]
  · rw [hdb1]
    show (files.foldl (processOneFile resolve skiploc t2
        (processedFiles (files.map (extractRecord resolve skiploc t1))))
        (files.map (extractRecord resolve skiploc t1), initialStats)).2.skipped_count
      = files.length
    rw [hpf2, hskip]
    simp [initialStats]

/-- Claim C8, witness: the amended theorem applied to a single healthy
file. -/
theorem C8_unchanged_idempotent_witness :
    (([⟨"lib/ok.jpg", true, some 5, some "h5",
          ExtractResult.ok ⟨none, none, none, none, none, none, none, none, none⟩⟩] :
        List FileInfo).map FileInfo.filepath).Nodup ∧
    (processRun (fun _ _ => none) false false "s2"
        [⟨"lib/ok.jpg", true, some 5, some "h5",
          ExtractResult.ok ⟨none, none, none, none, none, none, none, none, none⟩⟩]
        (processRun (fun _ _ => none) false false "s1"
          [⟨"lib/ok.jpg", true, some 5, some "h5",
            ExtractResult.ok ⟨none, none, none, none, none, none, none, none, none⟩⟩] []).1).1
      = (processRun (fun _ _ => none) false false "s1"
          [⟨"lib/ok.jpg", true, some 5, some "h5",
            ExtractResult.ok ⟨none, none, none, none, none, none, none, none, none⟩⟩] []).1 ∧
    (processRun (fun _ _ => none) false false "s2"
        [⟨"lib/ok.jpg", true, some 5, some "h5",
          ExtractResult.ok ⟨none, none, none, none, none, none, none, none, none⟩⟩]
        (processRun (fun _ _ => none) false false "s1"
          [⟨"lib/ok.jpg", true, some 5, some "h5",
            ExtractResult.ok ⟨none, none, none, none, none, none, none, none, none⟩⟩]
          []).1).2.skipped_count = 1 := by
  refine ⟨by decide, ?_⟩
  exact C8_unchanged_idempotent (fun _ _ => none) false "s1" "s2"
    [⟨"lib/ok.jpg", true, some 5, some "h5",
      ExtractResult.ok ⟨none, none, none, none, none, none, none, none, none⟩⟩]
    (by decide)
    (fun f hf => by
      rcases List.mem_singleton.mp hf with rfl
      exact ⟨rfl, by decide, ⟨⟨none, none, none, none, none, none, none, none, none⟩, rfl⟩⟩)

/-- Claim C9, counterexample.  A row with exactly 9 tab-separated fields
whose latitude field (position 4) is empty — a "missing latitude" row —
is skipped but NOT counted in the error count: the import state is
completely unchanged, because the insert guard `if geonameid and
latitude is not None and longitude is not None` has no `else` branch. -/
theorem C9_counterexample :
    (splitTab (pyStrip "123\tName\tAscii\tx\t\t2.5\tP\tPPL\tUS")).length = 9 ∧
    (splitTab (pyStrip "123\tName\tAscii\tx\t\t2.5\tP\tPPL\tUS")).getD 4 "" = "" ∧
    gazImportLine ⟨0, 0, []⟩ "123\tName\tAscii\tx\t\t2.5\tP\tPPL\tUS" = ⟨0, 0, []⟩ := by
  refine ⟨?_, ?_, ?_⟩ <;> decide

/-- Claim C9, amended: a row with fewer than 9 fields is skipped and
counted as an error; a row with at least 9 fields whose id, latitude or
longitude field fails numeric parsing (a `ValueError`) is skipped and
counted as an error; but a row with at least 9 parseable fields whose
id is falsy (empty or `0`) or whose latitude/longitude field is empty is
skipped silently, leaving the import state — error count included —
unchanged.  No row aborts the import (the step is a total function). -/
theorem C9_import_row_outcomes (st : GazImportState) (line : String) :
    ((splitTab (pyStrip line)).length < 9 →
      gazImportLine st line = { st with error_count := st.error_count + 1 }) ∧
    (¬ (splitTab (pyStrip line)).length < 9 →
      ∀ gid lat lon,
        parseOptInt ((splitTab (pyStrip line)).getD 0 "") = some gid →
        parseOptFloat ((splitTab (pyStrip line)).getD 4 "") = some lat →
        parseOptFloat ((splitTab (pyStrip line)).getD 5 "") = some lon →
        ¬ (gidTruthy gid = true ∧ lat.isSome = true ∧ lon.isSome = true) →
        gazImportLine st line = st) ∧
    (¬ (splitTab (pyStrip line)).length < 9 →
      (parseOptInt ((splitTab (pyStrip line)).getD 0 "") = none ∨
        parseOptFloat ((splitTab (pyStrip line)).getD 4 "") = none ∨
        parseOptFloat ((splitTab (pyStrip line)).getD 5 "") = none) →
      gazImportLine st line = { st with error_count := st.error_count + 1 }) := by
  refine ⟨?_, ?_, ?_⟩
  · intro hlen
    simp only [gazImportLine]
    rw [if_pos hlen]
  · intro hlen gid lat lon hgid hlat hlon hmiss
    simp only [gazImportLine]
    rw [if_neg hlen, hgid, hlat, hlon]
    exact if_neg hmiss
  · intro hlen hnone
    simp only [gazImportLine]
    rw [if_neg hlen]
    rcases h0 : parseOptInt ((splitTab (pyStrip line)).getD 0 "") with _ | gid
    · rfl
    · rcases h4 : parseOptFloat ((splitTab (pyStrip line)).getD 4 "") with _ | lat
      · rfl
      · rcases h5 : parseOptFloat ((splitTab (pyStrip line)).getD 5 "") with _ | lon
        · rfl
        · rcases hnone with h | h | h
          · rw [h0] at h
            exact absurd h (by simp)
          · rw [h4] at h
            exact absurd h (by simp)
          · rw [h5] at h
            exact absurd h (by simp)

/-- Claim C9, witness: the short-row case of the amended theorem at a
two-field line, which is counted in the error count. -/
theorem C9_import_row_outcomes_witness :
    (splitTab (pyStrip "a\tb")).length < 9 ∧
    gazImportLine ⟨0, 0, []⟩ "a\tb" = ⟨0, 0 + 1, []⟩ :=
  ⟨by decide, (C9_import_row_outcomes ⟨0, 0, []⟩ "a\tb").1 (by decide)⟩

/-- Claim C4, counterexample.  A single candidate exactly at the query
point (haversine distance 0, within the 50 km radius) whose name is SQL
NULL: the nearest candidate is within the radius, yet
`format_location_string` turns the falsy name into `None`, so no
formatted place string is returned. -/
theorem C4_counterexample :
    haversine_distance 0 0 0 0 ≤ 50 ∧
    resolveCandidates 0 0 [⟨none, 0, 0, none, none⟩] 50 = none := by
  constructor
  · rw [haversine_self]
    norm_num
  · have hd : haversine_distance 0 0 (⟨none, 0, 0, none, none⟩ : GeoCandidate).lat
        (⟨none, 0, 0, none, none⟩ : GeoCandidate).lon = 0 := haversine_self 0 0
    have hscan : scanCandidates 0 0 [⟨none, 0, 0, none, none⟩] none
        = some (0, ⟨none, 0, 0, none, none⟩) := by
      rw [scanCandidates, hd, if_pos (by norm_num : (0 : ℝ) < 0.5)]
    rw [resolveCandidates_eval _ _ _ _ _ _ _ hscan, if_pos (by norm_num : (0 : ℝ) ≤ 50)]
    rfl

/-- Claim C4, amended: over the fetched candidate set, provided the
radius is at least the 0.5 km early-exit threshold (the default 50 km
is) and the candidates carry truthy names, the resolver returns a
formatted place string exactly when some candidate lies within the
radius (a candidate at exactly the radius is included, `<=`), and
returns null when every candidate is beyond the radius or the set is
empty.  (Per the counterexample, a selected candidate with a NULL/empty
name yields null even within the radius.) -/
theorem C4_radius_boundary (lat lon maxd : ℝ) (cands : List GeoCandidate)
    (hhalf : (0.5 : ℝ) ≤ maxd)
    (hnames : ∀ c ∈ cands, pyTruthyStr c.name = true) :
    (resolveCandidates lat lon cands maxd).isSome = true ↔
      ∃ c ∈ cands, haversine_distance lat lon c.lat c.lon ≤ maxd := by
  match cands with
  | [] => simp [resolveCandidates]
  | c :: l =>
    constructor
    · intro hs
      rcases hscan : scanCandidates lat lon (c :: l) none with _ | ⟨m, b⟩
      · rw [resolveCandidates, if_neg (by simp), hscan] at hs
        simp at hs
      · rw [resolveCandidates_eval _ _ _ _ _ _ _ hscan] at hs
        by_cases hth : m ≤ maxd
        · rcases scanCandidates_shape lat lon (c :: l) none with hnone | ⟨d, hd, heq⟩
          · rw [hscan] at hnone
            exact absurd hnone (by simp)
          · rw [hscan] at heq
            have hmd : m = haversine_distance lat lon d.lat d.lon :=
              ((Prod.mk.injEq _ _ _ _).mp ((Option.some.injEq _ _).mp heq)).1
            exact ⟨d, hd, by rw [← hmd]; exact hth⟩
        · rw [if_neg hth] at hs
          simp at hs
    · rintro ⟨d, hd, hdle⟩
      obtain ⟨m, b, hscan, hm⟩ :=
        scanCandidates_reaches lat lon maxd hhalf (c :: l) none (Or.inl ⟨d, hd, hdle⟩)
      rw [resolveCandidates_eval _ _ _ _ _ _ _ hscan, if_pos hm]
      rcases scanCandidates_shape lat lon (c :: l) none with hnone | ⟨e, he, heq⟩
      · rw [hscan] at hnone
        exact absurd hnone (by simp)
      · rw [hscan] at heq
        have hbe : b = e :=
          ((Prod.mk.injEq _ _ _ _).mp ((Option.some.injEq _ _).mp heq)).2
        rw [hbe]
        exact format_isSome _ _ _ (hnames e he)

/-- Claim C4, witness: the amended theorem applied to one named
candidate at the query point within the default 50 km radius. -/
theorem C4_radius_boundary_witness :
    ((0.5 : ℝ) ≤ 50 ∧
      (∀ c ∈ [(⟨some "Quito", 0, 0, none, none⟩ : GeoCandidate)],
        pyTruthyStr c.name = true)) ∧
    ((resolveCandidates 0 0 [⟨some "Quito", 0, 0, none, none⟩] 50).isSome = true ↔
      ∃ c ∈ [(⟨some "Quito", 0, 0, none, none⟩ : GeoCandidate)],
        haversine_distance 0 0 c.lat c.lon ≤ 50) :=
  ⟨⟨by norm_num, fun c hc => by
      rcases List.mem_singleton.mp hc with rfl
      rfl⟩,
    C4_radius_boundary 0 0 50 [⟨some "Quito", 0, 0, none, none⟩] (by norm_num)
      (fun c hc => by
        rcases List.mem_singleton.mp hc with rfl
        rfl)⟩

/-- Claim C5, counterexample.  Query (0,0); first candidate "X" on the
same meridian at latitude 1/1000 (≈0.111 km away, inside the 0.5 km
early-exit threshold), second candidate "Y" exactly at the query point
(distance 0).  The early-exit scan breaks at "X" and returns "X" while
the exhaustive minimum-distance scan returns the strictly nearer "Y":
the early exit is not correctness-preserving for the returned string. -/
theorem C5_counterexample :
    resolveCandidates 0 0
        [⟨some "X", 1/1000, 0, none, none⟩, ⟨some "Y", 0, 0, none, none⟩] 50
      = some "X" ∧
    resolveCandidatesExhaustive 0 0
        [⟨some "X", 1/1000, 0, none, none⟩, ⟨some "Y", 0, 0, none, none⟩] 50
      = some "Y" := by
  constructor
  · have hscan : scanCandidates 0 0
        [⟨some "X", 1/1000, 0, none, none⟩, ⟨some "Y", 0, 0, none, none⟩] none
        = some (haversine_distance 0 0 (1/1000) 0, ⟨some "X", 1/1000, 0, none, none⟩) := by
      rw [scanCandidates, if_pos havMilli_lt_half]
    rw [resolveCandidates_eval _ _ _ _ _ _ _ hscan]
    rw [if_pos (by linarith [havMilli_lt_half] : haversine_distance 0 0 (1/1000) 0 ≤ 50)]
    decide
  · have hscan : scanCandidatesExhaustive 0 0
        [⟨some "X", 1/1000, 0, none, none⟩, ⟨some "Y", 0, 0, none, none⟩] none
        = some (0, ⟨some "Y", 0, 0, none, none⟩) := by
      rw [scanCandidatesExhaustive, scanCandidatesExhaustive, scanCandidatesExhaustive]
      rw [haversine_self, if_pos havMilli_pos]
    rw [resolveCandidatesExhaustive_eval _ _ _ _ _ _ _ hscan]
    rw [if_pos (by norm_num : (0 : ℝ) ≤ 50)]
    decide

/-- Claim C5, amended: the early-exit scan returns the same location
string as the exhaustive minimum-distance scan whenever no candidate
lies strictly within 0.5 km of the query point (the break then never
fires); with a sub-0.5 km candidate present the two scans can return
different strings, as the counterexample shows. -/
theorem C5_early_exit_agreement (lat lon maxd : ℝ) (cands : List GeoCandidate)
    (hfar : ∀ c ∈ cands, ¬ haversine_distance lat lon c.lat c.lon < 0.5) :
    resolveCandidates lat lon cands maxd = resolveCandidatesExhaustive lat lon cands maxd := by
  rw [resolveCandidates, resolveCandidatesExhaustive,
    scanCandidates_noClose_eq lat lon cands hfar none]

/-- Claim C5, witness: the amended theorem applied to a single candidate
about 111 km away (outside the early-exit threshold). -/
theorem C5_early_exit_agreement_witness :
    (∀ c ∈ [(⟨some "Z", 1, 0, none, none⟩ : GeoCandidate)],
      ¬ haversine_distance 0 0 c.lat c.lon < 0.5) ∧
    resolveCandidates 0 0 [⟨some "Z", 1, 0, none, none⟩] 50
      = resolveCandidatesExhaustive 0 0 [⟨some "Z", 1, 0, none, none⟩] 50 :=
  ⟨fun c hc => by
      rcases List.mem_singleton.mp hc with rfl
      exact havOne_not_lt_half,
    C5_early_exit_agreement 0 0 50 [⟨some "Z", 1, 0, none, none⟩]
      (fun c hc => by
        rcases List.mem_singleton.mp hc with rfl
        exact havOne_not_lt_half)⟩
